import Mathlib

/-!
Shallow embedding of the TypeScript mixin framework (the abstract class
Mixin of the repository) together with the example file.  JS property names
and class identities are modelled as natural numbers, JS own-property tables
as association lists, and a host instance as an explicit record.  Ghost logs
record initializer invocations, finalizer invocations and console.error
output so that lifecycle claims can be stated.
-/

namespace MixinTS

/-- Property-name key of the JS property called constructor. -/
def ckey : Nat := 0

/-- JS property write on an own-property table (assignment or
defineProperty): overwrite the binding in place when the key is present,
otherwise append it. -/
def aset : List (Nat × Nat) → Nat → Nat → List (Nat × Nat)
  | [], k, v => [(k, v)]
  | (k', v') :: t, k, v => if k' = k then (k, v) :: t else (k', v') :: aset t k v

/-- Own-property lookup on a property table. -/
def alookup : List (Nat × Nat) → Nat → Option Nat
  | [], _ => none
  | (k', v') :: t, k => if k' = k then some v' else alookup t k

/-- Copy a list of property descriptors onto a table in order: the forEach
over Object.getOwnPropertyNames inside applyMixin. -/
def asetAll (l : List (Nat × Nat)) (props : List (Nat × Nat)) : List (Nat × Nat) :=
  props.foldl (fun acc p => aset acc p.1 p.2) l

/-- A value of the mixinsApplied map: the class that applied the mixin
(classApplyingMixin) and the destroy method that was bound at attach time,
kept as its effect on user state together with the identity of the mixin it
finalizes (used for the ghost destroy log). -/
structure Entry (σ : Type) where
  classApplyingMixin : Nat
  destroyId : Nat
  destroyFun : σ → σ

/-- A host instance: the two bookkeeping fields of the framework
(mixinsApplied, mixinsDestroyed, both possibly undefined), the JS object
surface (own properties, the constructor inherited from the host class
prototype, the prototype chain used by instanceof), the user-visible state
of the mixins, and three ghost logs (initializer invocations, finalizer
invocations, console.error output as (host class, required class, mixin)
triples). -/
structure Host (σ : Type) where
  mixinsApplied : Option (List (Nat × Entry σ))
  mixinsDestroyed : Option Nat
  ownProps : List (Nat × Nat)
  protoCtor : Nat
  classChain : List Nat
  user : σ
  initLog : List Nat
  destroyLog : List Nat
  errLog : List (Nat × Nat × Nat)

/-- A mixin class: its identity (the class object, also its name), the
static multiMixin flag, the own properties of its prototype, its
MixinClassName initializer (reading the host, returning new user state plus
console.error output) and its MixinClassNameDestroy finalizer. -/
structure MClass (σ γ : Type) where
  id : Nat
  multiMixin : Bool
  protoProps : List (Nat × Nat)
  init : Option γ → Host σ → σ × List (Nat × Nat × Nat)
  destroy : σ → σ

/-- One element of the varargs of mixinInits: either a bare mixin class or
a mixin class paired with a conf object. -/
structure MixinArg (σ γ : Type) where
  mixin : MClass σ γ
  conf : Option γ

/-- Mixin.hasMixin: false when the mixinsApplied map is undefined, else a
key lookup in the map. -/
def hasMixin {σ : Type} (h : Host σ) (mixinId : Nat) : Bool :=
  match h.mixinsApplied with
  | none => false
  | some reg => reg.any (fun e => e.1 == mixinId)

/-- Read the constructor property of a host: its own constructor property
when member installation has defined one, else the one inherited from its
class prototype. -/
def getCtor {σ : Type} (h : Host σ) : Nat :=
  (alookup h.ownProps ckey).getD h.protoCtor

/-- Mixin.applyMixin, applied to the own-property table of the given class
prototype: save the host's constructor, copy every descriptor of the
prototype onto the host, then write the saved constructor back. -/
def applyMixin {σ : Type} (h : Host σ) (props : List (Nat × Nat)) : Host σ :=
  { h with ownProps := aset (asetAll h.ownProps props) ckey (getCtor h) }

/-- Prototype own properties of the abstract class Mixin itself, installed
once on every host that uses mixins: its constructor and the mixinDestroys
method. -/
def baseProtoProps : List (Nat × Nat) := [(ckey, 60), (1, 101)]

/-- Mixin.notApplicable: when the host is neither an instanceof the
required class nor has it attached as a mixin, emit a console.error naming
the host's constructor, the required class and the mixin, and return true;
otherwise return false with no output. -/
def notApplicable {σ : Type} (h : Host σ) (mixinId requiredId : Nat) :
    Bool × List (Nat × Nat × Nat) :=
  if !(h.classChain.contains requiredId) && !(hasMixin h requiredId) then
    (true, [(getCtor h, requiredId, mixinId)])
  else
    (false, [])

/-- Registry value recorded by mixinInits for a mixin applied by
classOfInstance: the destroy method looked up and bound at attach time. -/
def mkEntry {σ γ : Type} (classOfInstance : Nat) (m : MClass σ γ) : Entry σ :=
  ⟨classOfInstance, m.id, m.destroy⟩

/-- Invocation of a mixin's initializer with its conf: the user state and
console.error output are updated and the invocation is recorded in the
ghost init log. -/
def runInit {σ γ : Type} (m : MClass σ γ) (conf : Option γ) (h : Host σ) : Host σ :=
  let r := m.init conf h
  { h with user := r.1, errLog := h.errLog ++ r.2, initLog := h.initLog ++ [m.id] }

/-- Lines 56 to 60 of mixinInits: when the mixinsApplied map is undefined,
apply the base Mixin class to the host and create the empty map. -/
def ensureRegistry {σ : Type} (h : Host σ) : Host σ :=
  if h.mixinsApplied.isNone then
    { applyMixin h baseProtoProps with mixinsApplied := some [] }
  else h

/-- Body of the forEach of mixinInits for one mixin argument: compute
doesNotHaveMixin, install the prototype members when it holds, invoke the
initializer when multiMixin or doesNotHaveMixin holds, and record the
registry entry when doesNotHaveMixin holds. -/
def mixinStep {σ γ : Type} (classOfInstance : Nat) (h : Host σ) (a : MixinArg σ γ) : Host σ :=
  let m := a.mixin
  let doesNotHaveMixin := hasMixin h m.id == false
  let h1 := if doesNotHaveMixin then applyMixin h m.protoProps else h
  let h2 := if m.multiMixin || doesNotHaveMixin then runInit m a.conf h1 else h1
  if doesNotHaveMixin then
    { h2 with mixinsApplied := some (h2.mixinsApplied.getD [] ++ [(m.id, mkEntry classOfInstance m)]) }
  else h2

/-- Mixin.mixinInits: create the registry if needed, then process the mixin
arguments in order. -/
def mixinInits {σ γ : Type} (h : Host σ) (classOfInstance : Nat)
    (args : List (MixinArg σ γ)) : Host σ :=
  args.foldl (mixinStep classOfInstance) (ensureRegistry h)

/-- Invocation of one bound destroy method inside mixinDestroys, together
with the counter increment that follows it. -/
def runDestroy {σ : Type} (h : Host σ) (p : Nat × Entry σ) : Host σ :=
  { h with user := p.2.destroyFun h.user,
           destroyLog := h.destroyLog ++ [p.2.destroyId],
           mixinsDestroyed := some (h.mixinsDestroyed.getD 0 + 1) }

/-- Mixin.mixinDestroys: when the registry exists, select the entries whose
classApplyingMixin matches, reverse them, default the counter to 0 when
undefined, invoke each selected destroy method while counting, and when the
registry size equals the counter clear and delete both fields. -/
def mixinDestroys {σ : Type} (h : Host σ) (classApplyingMixin : Nat) : Host σ :=
  match h.mixinsApplied with
  | none => h
  | some reg =>
    let tempArray := (reg.filter (fun e => e.2.classApplyingMixin == classApplyingMixin)).reverse
    let h1 := { h with mixinsDestroyed := some (h.mixinsDestroyed.getD 0) }
    let h2 := tempArray.foldl runDestroy h1
    if (h2.mixinsApplied.getD []).length == h2.mixinsDestroyed.getD 0 then
      { h2 with mixinsApplied := none, mixinsDestroyed := none }
    else h2

/-- Destroy-method identities selected by a run of mixinDestroys for a
class, in invocation order (matching entries reversed). -/
def selDestroyIds {σ : Type} (h : Host σ) (classApplyingMixin : Nat) : List Nat :=
  (((h.mixinsApplied.getD []).filter
      (fun e => e.2.classApplyingMixin == classApplyingMixin)).reverse).map
    (fun p => p.2.destroyId)

/-- User-visible state of the example file: the myNumber field of
MixinNumber and the myString field of MixinString, each absent until its
initializer assigns it and deleted by its finalizer. -/
structure CState where
  myNumber : Option Nat
  myString : Option String
deriving DecidableEq

/-- Identity of the MixinNumber class. -/
def mixinNumberId : Nat := 61

/-- Identity of the MixinString class. -/
def mixinStringId : Nat := 62

/-- Identity of the Combinator class. -/
def combinatorId : Nat := 63

/-- Identity of the BaseClass class. -/
def baseClassId : Nat := 64

/-- Identity of a host class with no relation to MixinNumber, used to
exercise the constraint failure of MixinString. -/
def plainId : Nat := 65

/-- JS string conversion of a number field, as performed by the string
concatenation inside joinWithNumber. -/
def jsNumberToString : Option Nat → String
  | none => "undefined"
  | some n => toString n

/-- MixinString.getString: the myString field when it is a non-empty
string, else the fallback text (JS truthiness of this.myString). -/
def getString (s : CState) : String :=
  match s.myString with
  | none => "My value: "
  | some str => if str = "" then "My value: " else str

/-- MixinString.joinWithNumber: store getString() concatenated with
getNumber() back into myString. -/
def joinWithNumber (s : CState) : CState :=
  { s with myString := some (getString s ++ jsNumberToString s.myNumber) }

/-- MixinNumber of the example file: initializer sets myNumber to 1, the
finalizer deletes it.  Prototype members: constructor, MixinNumber,
MixinNumberDestroy, getNumber. -/
def mixinNumberC : MClass CState (Option String) where
  id := mixinNumberId
  multiMixin := false
  protoProps := [(ckey, mixinNumberId), (2, 102), (3, 103), (4, 104)]
  init := fun _ h => ({ h.user with myNumber := some 1 }, [])
  destroy := fun s => { s with myNumber := none }

/-- MixinString of the example file: the initializer first runs the
notApplicable check against MixinNumber and returns early when it fails,
else stores the conf's defaultValue in myString; the finalizer deletes
myString.  The conf object is modelled by its single optional field, and
conf.defaultValue by flattening (the example call sites always pass a
conf).  Prototype members: constructor, MixinString, MixinStringDestroy,
getString, joinWithNumber. -/
def mixinStringC : MClass CState (Option String) where
  id := mixinStringId
  multiMixin := false
  protoProps := [(ckey, mixinStringId), (5, 105), (6, 106), (7, 107), (8, 108)]
  init := fun conf h =>
    let r := notApplicable h mixinStringId mixinNumberId
    if r.1 then (h.user, r.2) else ({ h.user with myString := conf.getD none }, r.2)
  destroy := fun s => { s with myString := none }

/-- A freshly constructed Combinator instance right before the mixinInits
call of its constructor: no bookkeeping fields, no own properties, class
chain Combinator then BaseClass, both user fields absent. -/
def combinatorFresh : Host CState :=
  ⟨none, none, [], combinatorId, [combinatorId, baseClassId], ⟨none, none⟩, [], [], []⟩

/-- The mixinInits call of the Combinator constructor: MixinNumber bare,
then MixinString with conf defaultValue "Fave nr is: ". -/
def combinator : Host CState :=
  mixinInits combinatorFresh combinatorId
    [⟨mixinNumberC, none⟩, ⟨mixinStringC, some (some "Fave nr is: ")⟩]

/-- A fresh instance of a class unrelated to MixinNumber, violating the
constraint of MixinString. -/
def plainFresh : Host CState :=
  ⟨none, none, [], plainId, [plainId], ⟨none, none⟩, [], [], []⟩

/-- Attaching MixinString alone to the plain host: its constraint check
fails and its initializer returns early. -/
def plainWithString : Host CState :=
  mixinInits plainFresh plainId [⟨mixinStringC, none⟩]

/-- A minimal mixin class over trivial user state, used by the concrete
lifecycle scenarios. -/
def trivMixin (i : Nat) : MClass Unit Unit where
  id := i
  multiMixin := false
  protoProps := [(ckey, i)]
  init := fun _ h => (h.user, [])
  destroy := id

/-- A fresh host over trivial user state. -/
def exFresh : Host Unit := ⟨none, none, [], 90, [91], (), [], [], []⟩

/-- Scenario step: class 10 attaches mixin 1. -/
def exH1 : Host Unit := mixinInits exFresh 10 [⟨trivMixin 1, none⟩]

/-- Scenario step: class 20 then attaches mixin 2 to the same host. -/
def exH2 : Host Unit := mixinInits exH1 20 [⟨trivMixin 2, none⟩]

/-- Scenario step: first teardown scoped to class 10. -/
def exD1 : Host Unit := mixinDestroys exH2 10

/-- Scenario step: second teardown scoped to class 10. -/
def exD2 : Host Unit := mixinDestroys exD1 10

theorem alookup_aset_self : ∀ (l : List (Nat × Nat)) (k v : Nat),
    alookup (aset l k v) k = some v
  | [], k, v => by simp [aset, alookup]
  | (k', v') :: t, k, v => by
    by_cases hk : k' = k
    · simp [aset, hk, alookup]
    · simp [aset, hk, alookup, alookup_aset_self t k v]

theorem alookup_aset_ne : ∀ (l : List (Nat × Nat)) (k v n : Nat), n ≠ k →
    alookup (aset l k v) n = alookup l n
  | [], k, v, n, hn => by simp [aset, alookup, Ne.symm hn]
  | (k', v') :: t, k, v, n, hn => by
    by_cases hk : k' = k
    · subst hk
      simp [aset, alookup, Ne.symm hn]
    · by_cases hkn : k' = n
      · subst hkn
        simp [aset, hk, alookup]
      · simp [aset, hk, alookup, hkn, alookup_aset_ne t k v n hn]

theorem asetAll_cons (l : List (Nat × Nat)) (p : Nat × Nat) (t : List (Nat × Nat)) :
    asetAll l (p :: t) = asetAll (aset l p.1 p.2) t := by
  simp [asetAll]

theorem alookup_asetAll_not_mem : ∀ (props l : List (Nat × Nat)) (n : Nat),
    n ∉ props.map Prod.fst → alookup (asetAll l props) n = alookup l n
  | [], l, n, _ => by simp [asetAll]
  | (k, v) :: t, l, n, hn => by
    simp only [List.map_cons, List.mem_cons, not_or] at hn
    rw [asetAll_cons, alookup_asetAll_not_mem t _ n hn.2,
      alookup_aset_ne l k v n hn.1]

theorem alookup_asetAll_mem : ∀ (props l : List (Nat × Nat)) (n v : Nat),
    (props.map Prod.fst).Nodup → (n, v) ∈ props →
    alookup (asetAll l props) n = some v
  | [], l, n, v, _, hm => by simp at hm
  | (k, w) :: t, l, n, v, hnd, hm => by
    simp only [List.map_cons, List.nodup_cons] at hnd
    rw [asetAll_cons]
    rcases List.mem_cons.mp hm with heq | hmt
    · obtain ⟨rfl, rfl⟩ := Prod.mk.injEq k w n v ▸ heq.symm
      rw [alookup_asetAll_not_mem t _ k hnd.1, alookup_aset_self]
    · exact alookup_asetAll_mem t _ n v hnd.2 hmt

theorem getCtor_applyMixin {σ : Type} (h : Host σ) (props : List (Nat × Nat)) :
    getCtor (applyMixin h props) = getCtor h := by
  simp [applyMixin, getCtor, alookup_aset_self]

theorem alookup_applyMixin_mem {σ : Type} (h : Host σ) (props : List (Nat × Nat))
    (n v : Nat) (hnd : (props.map Prod.fst).Nodup) (hm : (n, v) ∈ props)
    (hn : n ≠ ckey) : alookup (applyMixin h props).ownProps n = some v := by
  simp only [applyMixin]
  rw [alookup_aset_ne _ _ _ _ hn, alookup_asetAll_mem props _ n v hnd hm]

@[simp] theorem applyMixin_mixinsApplied {σ : Type} (h : Host σ) (props : List (Nat × Nat)) :
    (applyMixin h props).mixinsApplied = h.mixinsApplied := rfl

@[simp] theorem applyMixin_mixinsDestroyed {σ : Type} (h : Host σ) (props : List (Nat × Nat)) :
    (applyMixin h props).mixinsDestroyed = h.mixinsDestroyed := rfl

@[simp] theorem applyMixin_initLog {σ : Type} (h : Host σ) (props : List (Nat × Nat)) :
    (applyMixin h props).initLog = h.initLog := rfl

@[simp] theorem applyMixin_destroyLog {σ : Type} (h : Host σ) (props : List (Nat × Nat)) :
    (applyMixin h props).destroyLog = h.destroyLog := rfl

@[simp] theorem applyMixin_user {σ : Type} (h : Host σ) (props : List (Nat × Nat)) :
    (applyMixin h props).user = h.user := rfl

@[simp] theorem runInit_mixinsApplied {σ γ : Type} (m : MClass σ γ) (conf : Option γ)
    (h : Host σ) : (runInit m conf h).mixinsApplied = h.mixinsApplied := rfl

@[simp] theorem runInit_mixinsDestroyed {σ γ : Type} (m : MClass σ γ) (conf : Option γ)
    (h : Host σ) : (runInit m conf h).mixinsDestroyed = h.mixinsDestroyed := rfl

@[simp] theorem runInit_ownProps {σ γ : Type} (m : MClass σ γ) (conf : Option γ)
    (h : Host σ) : (runInit m conf h).ownProps = h.ownProps := rfl

@[simp] theorem runInit_initLog {σ γ : Type} (m : MClass σ γ) (conf : Option γ)
    (h : Host σ) : (runInit m conf h).initLog = h.initLog ++ [m.id] := rfl

@[simp] theorem runInit_destroyLog {σ γ : Type} (m : MClass σ γ) (conf : Option γ)
    (h : Host σ) : (runInit m conf h).destroyLog = h.destroyLog := rfl

@[simp] theorem ensureRegistry_mixinsApplied {σ : Type} (h : Host σ) :
    (ensureRegistry h).mixinsApplied = some (h.mixinsApplied.getD []) := by
  cases hm : h.mixinsApplied <;> simp [ensureRegistry, hm]

@[simp] theorem ensureRegistry_mixinsDestroyed {σ : Type} (h : Host σ) :
    (ensureRegistry h).mixinsDestroyed = h.mixinsDestroyed := by
  cases hm : h.mixinsApplied <;> simp [ensureRegistry, hm]

@[simp] theorem ensureRegistry_initLog {σ : Type} (h : Host σ) :
    (ensureRegistry h).initLog = h.initLog := by
  cases hm : h.mixinsApplied <;> simp [ensureRegistry, hm]

@[simp] theorem ensureRegistry_destroyLog {σ : Type} (h : Host σ) :
    (ensureRegistry h).destroyLog = h.destroyLog := by
  cases hm : h.mixinsApplied <;> simp [ensureRegistry, hm]

theorem hasMixin_of_some {σ : Type} (h : Host σ) (reg : List (Nat × Entry σ))
    (hm : h.mixinsApplied = some reg) (i : Nat) :
    hasMixin h i = reg.any (fun e => e.1 == i) := by
  simp [hasMixin, hm]

theorem hasMixin_ensureRegistry {σ : Type} (h : Host σ) (i : Nat) :
    hasMixin (ensureRegistry h) i = hasMixin h i := by
  cases hm : h.mixinsApplied <;>
    simp [hasMixin, ensureRegistry, hm]

theorem ensureRegistry_of_isSome {σ : Type} (h : Host σ)
    (hs : h.mixinsApplied.isSome = true) : ensureRegistry h = h := by
  simp [ensureRegistry, Option.isNone_iff_eq_none]
  intro hn
  rw [hn] at hs
  simp at hs

theorem mixinStep_mixinsApplied {σ γ : Type} (c : Nat) (h : Host σ) (a : MixinArg σ γ) :
    (mixinStep c h a).mixinsApplied =
      if hasMixin h a.mixin.id then h.mixinsApplied
      else some (h.mixinsApplied.getD [] ++ [(a.mixin.id, mkEntry c a.mixin)]) := by
  cases hM : hasMixin h a.mixin.id
  · simp [mixinStep, hM]
  · simp [mixinStep, hM]
    split <;> simp

theorem mixinStep_initLog {σ γ : Type} (c : Nat) (h : Host σ) (a : MixinArg σ γ) :
    (mixinStep c h a).initLog =
      if a.mixin.multiMixin || !(hasMixin h a.mixin.id) then h.initLog ++ [a.mixin.id]
      else h.initLog := by
  cases hM : hasMixin h a.mixin.id <;> cases hmm : a.mixin.multiMixin <;>
    simp [mixinStep, hM, hmm]

theorem mixinStep_destroyLog {σ γ : Type} (c : Nat) (h : Host σ) (a : MixinArg σ γ) :
    (mixinStep c h a).destroyLog = h.destroyLog := by
  cases hM : hasMixin h a.mixin.id
  · simp [mixinStep, hM]
  · simp [mixinStep, hM]
    split <;> simp

theorem mixinStep_mixinsDestroyed {σ γ : Type} (c : Nat) (h : Host σ) (a : MixinArg σ γ) :
    (mixinStep c h a).mixinsDestroyed = h.mixinsDestroyed := by
  cases hM : hasMixin h a.mixin.id
  · simp [mixinStep, hM]
  · simp [mixinStep, hM]
    split <;> simp

theorem mixinStep_ownProps_of_hasMixin {σ γ : Type} (c : Nat) (h : Host σ)
    (a : MixinArg σ γ) (hM : hasMixin h a.mixin.id = true) :
    (mixinStep c h a).ownProps = h.ownProps := by
  simp [mixinStep, hM]
  split <;> simp

theorem mixinStep_ownProps_of_not {σ γ : Type} (c : Nat) (h : Host σ)
    (a : MixinArg σ γ) (hM : hasMixin h a.mixin.id = false) :
    (mixinStep c h a).ownProps = (applyMixin h a.mixin.protoProps).ownProps := by
  simp [mixinStep, hM]

theorem mixinInits_one {σ γ : Type} (h : Host σ) (c : Nat) (a : MixinArg σ γ) :
    mixinInits h c [a] = mixinStep c (ensureRegistry h) a := by
  simp [mixinInits]

theorem mixinInits_two {σ γ : Type} (h : Host σ) (c : Nat) (a1 a2 : MixinArg σ γ) :
    mixinInits h c [a1, a2] = mixinStep c (mixinStep c (ensureRegistry h) a1) a2 := by
  simp [mixinInits]

theorem foldlDestroy_mixinsApplied {σ : Type} :
    ∀ (l : List (Nat × Entry σ)) (h : Host σ),
      (l.foldl runDestroy h).mixinsApplied = h.mixinsApplied
  | [], h => rfl
  | p :: t, h => by
    simp [List.foldl_cons, foldlDestroy_mixinsApplied t, runDestroy]

theorem foldlDestroy_ownProps {σ : Type} :
    ∀ (l : List (Nat × Entry σ)) (h : Host σ),
      (l.foldl runDestroy h).ownProps = h.ownProps
  | [], h => rfl
  | p :: t, h => by
    simp [List.foldl_cons, foldlDestroy_ownProps t, runDestroy]

theorem foldlDestroy_initLog {σ : Type} :
    ∀ (l : List (Nat × Entry σ)) (h : Host σ),
      (l.foldl runDestroy h).initLog = h.initLog
  | [], h => rfl
  | p :: t, h => by
    simp [List.foldl_cons, foldlDestroy_initLog t, runDestroy]

theorem foldlDestroy_destroyLog {σ : Type} :
    ∀ (l : List (Nat × Entry σ)) (h : Host σ),
      (l.foldl runDestroy h).destroyLog = h.destroyLog ++ l.map (fun p => p.2.destroyId)
  | [], h => by simp
  | p :: t, h => by
    simp [List.foldl_cons, foldlDestroy_destroyLog t, runDestroy]

theorem foldlDestroy_mixinsDestroyed {σ : Type} :
    ∀ (l : List (Nat × Entry σ)) (h : Host σ) (k : Nat),
      h.mixinsDestroyed = some k →
      (l.foldl runDestroy h).mixinsDestroyed = some (k + l.length)
  | [], h, k, hk => by simpa using hk
  | p :: t, h, k, hk => by
    rw [List.foldl_cons,
      foldlDestroy_mixinsDestroyed t (runDestroy h p) (k + 1) (by simp [runDestroy, hk])]
    simp [Nat.add_assoc, Nat.add_comm 1 t.length]

theorem mixinDestroys_of_none {σ : Type} (h : Host σ) (c : Nat)
    (hm : h.mixinsApplied = none) : mixinDestroys h c = h := by
  simp [mixinDestroys, hm]

theorem mixinDestroys_destroyLog {σ : Type} (h : Host σ) (c : Nat)
    (reg : List (Nat × Entry σ)) (hm : h.mixinsApplied = some reg) :
    (mixinDestroys h c).destroyLog = h.destroyLog ++ selDestroyIds h c := by
  simp only [mixinDestroys, hm]
  split
  case isTrue hcond =>
    show (List.foldl runDestroy _ _).destroyLog = _
    rw [foldlDestroy_destroyLog]
    simp [selDestroyIds, hm]
  case isFalse hcond =>
    rw [foldlDestroy_destroyLog]
    simp [selDestroyIds, hm]

theorem mixinDestroys_mixinsApplied {σ : Type} (h : Host σ) (c : Nat)
    (reg : List (Nat × Entry σ)) (hm : h.mixinsApplied = some reg) :
    (mixinDestroys h c).mixinsApplied =
      if reg.length = h.mixinsDestroyed.getD 0 +
          (reg.filter (fun e => e.2.classApplyingMixin == c)).length then none
      else some reg := by
  simp only [mixinDestroys, hm]
  split
  case isTrue hcond =>
    rw [foldlDestroy_mixinsApplied,
      foldlDestroy_mixinsDestroyed _ _ (h.mixinsDestroyed.getD 0) rfl] at hcond
    have hlen : reg.length = h.mixinsDestroyed.getD 0 +
        (reg.filter (fun e => e.2.classApplyingMixin == c)).length := by
      simpa [hm] using hcond
    simp [hlen]
  case isFalse hcond =>
    rw [foldlDestroy_mixinsApplied,
      foldlDestroy_mixinsDestroyed _ _ (h.mixinsDestroyed.getD 0) rfl] at hcond
    have hlen : ¬ (reg.length = h.mixinsDestroyed.getD 0 +
        (reg.filter (fun e => e.2.classApplyingMixin == c)).length) := by
      simpa [hm] using hcond
    rw [foldlDestroy_mixinsApplied]
    simp [hm, hlen]

theorem mixinDestroys_mixinsDestroyed {σ : Type} (h : Host σ) (c : Nat)
    (reg : List (Nat × Entry σ)) (hm : h.mixinsApplied = some reg) :
    (mixinDestroys h c).mixinsDestroyed =
      if reg.length = h.mixinsDestroyed.getD 0 +
          (reg.filter (fun e => e.2.classApplyingMixin == c)).length then none
      else some (h.mixinsDestroyed.getD 0 +
        (reg.filter (fun e => e.2.classApplyingMixin == c)).length) := by
  simp only [mixinDestroys, hm]
  split
  case isTrue hcond =>
    rw [foldlDestroy_mixinsApplied,
      foldlDestroy_mixinsDestroyed _ _ (h.mixinsDestroyed.getD 0) rfl] at hcond
    have hlen : reg.length = h.mixinsDestroyed.getD 0 +
        (reg.filter (fun e => e.2.classApplyingMixin == c)).length := by
      simpa [hm] using hcond
    simp [hlen]
  case isFalse hcond =>
    rw [foldlDestroy_mixinsApplied,
      foldlDestroy_mixinsDestroyed _ _ (h.mixinsDestroyed.getD 0) rfl] at hcond
    have hlen : ¬ (reg.length = h.mixinsDestroyed.getD 0 +
        (reg.filter (fun e => e.2.classApplyingMixin == c)).length) := by
      simpa [hm] using hcond
    rw [foldlDestroy_mixinsDestroyed _ _ (h.mixinsDestroyed.getD 0) rfl]
    simp [hlen]

theorem mixinDestroys_ownProps {σ : Type} (h : Host σ) (c : Nat) :
    (mixinDestroys h c).ownProps = h.ownProps := by
  cases hm : h.mixinsApplied with
  | none => simp [mixinDestroys, hm]
  | some reg =>
    simp only [mixinDestroys, hm]
    split
    case isTrue hcond =>
      show (List.foldl runDestroy _ _).ownProps = _
      rw [foldlDestroy_ownProps]
    case isFalse hcond =>
      rw [foldlDestroy_ownProps]

theorem mixinDestroys_initLog {σ : Type} (h : Host σ) (c : Nat) :
    (mixinDestroys h c).initLog = h.initLog := by
  cases hm : h.mixinsApplied with
  | none => simp [mixinDestroys, hm]
  | some reg =>
    simp only [mixinDestroys, hm]
    split
    case isTrue hcond =>
      show (List.foldl runDestroy _ _).initLog = _
      rw [foldlDestroy_initLog]
    case isFalse hcond =>
      rw [foldlDestroy_initLog]

theorem countP_eq_zero_of_hasMixin_false {σ : Type} (h : Host σ) (i : Nat)
    (hA : hasMixin h i = false) :
    (h.mixinsApplied.getD []).countP (fun e => e.1 == i) = 0 := by
  cases hm : h.mixinsApplied with
  | none => simp
  | some reg =>
    rw [hasMixin_of_some _ _ hm] at hA
    simp only [hm, Option.getD_some]
    rw [List.countP_eq_zero]
    intro e he
    simp only [List.any_eq_false] at hA
    exact fun hp => hA e he (by simpa using hp)

theorem foldlStep_isSome {σ γ : Type} (c : Nat) :
    ∀ (args : List (MixinArg σ γ)) (h : Host σ),
      h.mixinsApplied.isSome = true →
      (args.foldl (mixinStep c) h).mixinsApplied.isSome = true
  | [], _, hs => hs
  | a :: t, h, hs => by
    rw [List.foldl_cons]
    refine foldlStep_isSome c t _ ?_
    rw [mixinStep_mixinsApplied]
    split <;> simp [hs]

theorem foldlStep_counter {σ γ : Type} (c : Nat) :
    ∀ (args : List (MixinArg σ γ)) (h : Host σ),
      (args.foldl (mixinStep c) h).mixinsDestroyed = h.mixinsDestroyed
  | [], _ => rfl
  | a :: t, h => by
    rw [List.foldl_cons, foldlStep_counter c t, mixinStep_mixinsDestroyed]

/-- C1: after a call composeAll(H, C, U) (mixinInits) on a host to which U
is not yet attached and on which U's initializer has never run, the
membership query hasUnit(H, U) (hasMixin) returns true and U's initializer
has been invoked exactly once on H. -/
theorem claimC1_compose_attaches_and_runs_once {σ γ : Type} (h : Host σ) (c : Nat)
    (a : MixinArg σ γ) (hA : hasMixin h a.mixin.id = false)
    (hI : h.initLog.count a.mixin.id = 0) :
    hasMixin (mixinInits h c [a]) a.mixin.id = true ∧
    (mixinInits h c [a]).initLog.count a.mixin.id = 1 := by
  rw [mixinInits_one]
  have hE : hasMixin (ensureRegistry h) a.mixin.id = false := by
    rw [hasMixin_ensureRegistry]; exact hA
  have hreg := mixinStep_mixinsApplied c (ensureRegistry h) a
  rw [hE] at hreg
  simp only [Bool.false_eq_true, if_false] at hreg
  constructor
  · rw [hasMixin_of_some _ _ hreg]
    simp
  · rw [mixinStep_initLog, hE]
    simp [List.count_append, hI]

/-- Witness for C1 at a concrete fresh host and mixin. -/
theorem claimC1_witness :
    hasMixin (mixinInits exFresh 10 [⟨trivMixin 1, none⟩]) (trivMixin 1).id = true ∧
    (mixinInits exFresh 10 [⟨trivMixin 1, none⟩]).initLog.count (trivMixin 1).id = 1 :=
  claimC1_compose_attaches_and_runs_once exFresh 10 ⟨trivMixin 1, none⟩
    (by decide) (by decide)

/-- C2: a second composeAll(H, C, U) (mixinInits) re-invokes U's
initializer if and only if its multiMixin policy is on: the initializer has
run twice with the policy on and exactly once with it off; in both cases
U's members remain installed on H and U occupies exactly one registry
entry. -/
theorem claimC2_repeat_policy {σ γ : Type} (h : Host σ) (c : Nat) (a : MixinArg σ γ)
    (hA : hasMixin h a.mixin.id = false)
    (hI : h.initLog.count a.mixin.id = 0)
    (hnd : (a.mixin.protoProps.map Prod.fst).Nodup) :
    (mixinInits (mixinInits h c [a]) c [a]).initLog.count a.mixin.id
      = (if a.mixin.multiMixin then 2 else 1) ∧
    ((mixinInits (mixinInits h c [a]) c [a]).mixinsApplied.getD []).countP
      (fun e => e.1 == a.mixin.id) = 1 ∧
    (∀ n v, (n, v) ∈ a.mixin.protoProps → n ≠ ckey →
      alookup (mixinInits (mixinInits h c [a]) c [a]).ownProps n = some v) := by
  have hE : hasMixin (ensureRegistry h) a.mixin.id = false := by
    rw [hasMixin_ensureRegistry]; exact hA
  have hreg1 := mixinStep_mixinsApplied c (ensureRegistry h) a
  rw [hE] at hreg1
  simp only [Bool.false_eq_true, if_false, ensureRegistry_mixinsApplied,
    Option.getD_some] at hreg1
  rw [mixinInits_one] at *
  have hH1 : hasMixin (mixinStep c (ensureRegistry h) a) a.mixin.id = true := by
    rw [hasMixin_of_some _ _ hreg1]
    simp
  have hEq1 : ensureRegistry (mixinStep c (ensureRegistry h) a)
      = mixinStep c (ensureRegistry h) a :=
    ensureRegistry_of_isSome _ (by rw [hreg1]; rfl)
  rw [mixinInits_one, hEq1]
  have hlog1 : (mixinStep c (ensureRegistry h) a).initLog = h.initLog ++ [a.mixin.id] := by
    rw [mixinStep_initLog, hE]
    simp
  have hown1 : alookup (mixinStep c (ensureRegistry h) a).ownProps
      = alookup (applyMixin (ensureRegistry h) a.mixin.protoProps).ownProps := by
    rw [mixinStep_ownProps_of_not _ _ _ hE]
  refine ⟨?_, ?_, ?_⟩
  · rw [mixinStep_initLog, hH1, hlog1]
    cases hmm : a.mixin.multiMixin <;>
      simp [List.count_append, hI]
  · have hreg2 := mixinStep_mixinsApplied c (mixinStep c (ensureRegistry h) a) a
    rw [hH1] at hreg2
    simp only [if_true] at hreg2
    rw [hreg2, hreg1]
    simp only [Option.getD_some, List.countP_append]
    rw [countP_eq_zero_of_hasMixin_false h _ hA]
    simp [List.countP_cons]
  · intro n v hm hn
    rw [mixinStep_ownProps_of_hasMixin _ _ _ hH1, hown1]
    exact alookup_applyMixin_mem _ _ n v hnd hm hn

/-- Witness for C2 at a concrete fresh host and mixin. -/
theorem claimC2_witness :
    (mixinInits (mixinInits exFresh 10 [⟨trivMixin 1, none⟩]) 10 [⟨trivMixin 1, none⟩]).initLog.count
        (trivMixin 1).id = (if (trivMixin 1).multiMixin then 2 else 1) ∧
    ((mixinInits (mixinInits exFresh 10 [⟨trivMixin 1, none⟩]) 10 [⟨trivMixin 1, none⟩]).mixinsApplied.getD
        []).countP (fun e => e.1 == (trivMixin 1).id) = 1 ∧
    (∀ n v, (n, v) ∈ (trivMixin 1).protoProps → n ≠ ckey →
      alookup (mixinInits (mixinInits exFresh 10 [⟨trivMixin 1, none⟩]) 10
          [⟨trivMixin 1, none⟩]).ownProps n = some v) :=
  claimC2_repeat_policy exFresh 10 ⟨trivMixin 1, none⟩ (by decide) (by decide) (by decide)

/-- C3: after units U1 then U2 are attached in that order by the same
owning class C, teardownAll(H, C) (mixinDestroys) invokes U2's finalizer
before U1's finalizer, and no finalizer had run before. -/
theorem claimC3_reverse_teardown_order {σ γ : Type} (h : Host σ) (c : Nat)
    (a1 a2 : MixinArg σ γ) (hre : h.mixinsApplied = none)
    (hid : a1.mixin.id ≠ a2.mixin.id) :
    (mixinDestroys (mixinInits h c [a1, a2]) c).destroyLog
      = h.destroyLog ++ [a2.mixin.id, a1.mixin.id] := by
  rw [mixinInits_two]
  have hE : (ensureRegistry h).mixinsApplied = some [] := by
    rw [ensureRegistry_mixinsApplied, hre]
    rfl
  have hE0 : hasMixin (ensureRegistry h) a1.mixin.id = false := by
    rw [hasMixin_of_some _ _ hE]
    rfl
  have hreg1 := mixinStep_mixinsApplied c (ensureRegistry h) a1
  rw [hE0] at hreg1
  simp only [Bool.false_eq_true, if_false, hE, Option.getD_some, List.nil_append] at hreg1
  have hH1 : hasMixin (mixinStep c (ensureRegistry h) a1) a2.mixin.id = false := by
    rw [hasMixin_of_some _ _ hreg1]
    simp [hid]
  have hreg2 := mixinStep_mixinsApplied c (mixinStep c (ensureRegistry h) a1) a2
  rw [hH1] at hreg2
  simp only [Bool.false_eq_true, if_false, hreg1, Option.getD_some] at hreg2
  rw [mixinDestroys_destroyLog _ c _ hreg2]
  rw [mixinStep_destroyLog, mixinStep_destroyLog, ensureRegistry_destroyLog]
  simp [selDestroyIds, hreg2, mkEntry]

/-- Witness for C3 at a concrete fresh host and two mixins. -/
theorem claimC3_witness :
    (mixinDestroys (mixinInits exFresh 10 [⟨trivMixin 1, none⟩, ⟨trivMixin 2, none⟩]) 10).destroyLog
      = exFresh.destroyLog ++ [(trivMixin 2).id, (trivMixin 1).id] :=
  claimC3_reverse_teardown_order exFresh 10 ⟨trivMixin 1, none⟩ ⟨trivMixin 2, none⟩
    rfl (by decide)

/-- C4: on a fresh host where U1 is attached by class C1 and U2 by a
distinct class C2, teardownAll(H, C1) (mixinDestroys) invokes only U1's
finalizer, while U2's installed members are unchanged and hasUnit(H, U2)
still returns true afterwards. -/
theorem claimC4_scoped_teardown {σ γ : Type} (h : Host σ) (c1 c2 : Nat)
    (a1 a2 : MixinArg σ γ) (hre : h.mixinsApplied = none)
    (hrd : h.mixinsDestroyed = none) (hcc : c2 ≠ c1)
    (hid : a1.mixin.id ≠ a2.mixin.id)
    (hnd : (a2.mixin.protoProps.map Prod.fst).Nodup) :
    (mixinDestroys (mixinInits (mixinInits h c1 [a1]) c2 [a2]) c1).destroyLog
      = h.destroyLog ++ [a1.mixin.id] ∧
    hasMixin (mixinDestroys (mixinInits (mixinInits h c1 [a1]) c2 [a2]) c1)
      a2.mixin.id = true ∧
    (∀ n v, (n, v) ∈ a2.mixin.protoProps → n ≠ ckey →
      alookup (mixinDestroys (mixinInits (mixinInits h c1 [a1]) c2 [a2]) c1).ownProps n
        = some v) := by
  rw [mixinInits_one]
  have hE : (ensureRegistry h).mixinsApplied = some [] := by
    rw [ensureRegistry_mixinsApplied, hre]; rfl
  have hE0 : hasMixin (ensureRegistry h) a1.mixin.id = false := by
    rw [hasMixin_of_some _ _ hE]; rfl
  have hreg1 := mixinStep_mixinsApplied c1 (ensureRegistry h) a1
  rw [hE0] at hreg1
  simp only [Bool.false_eq_true, if_false, hE, Option.getD_some, List.nil_append] at hreg1
  have hEq1 : ensureRegistry (mixinStep c1 (ensureRegistry h) a1)
      = mixinStep c1 (ensureRegistry h) a1 :=
    ensureRegistry_of_isSome _ (by rw [hreg1]; rfl)
  rw [mixinInits_one, hEq1]
  have hH1 : hasMixin (mixinStep c1 (ensureRegistry h) a1) a2.mixin.id = false := by
    rw [hasMixin_of_some _ _ hreg1]
    simp [hid]
  have hreg2 := mixinStep_mixinsApplied c2 (mixinStep c1 (ensureRegistry h) a1) a2
  rw [hH1] at hreg2
  simp only [Bool.false_eq_true, if_false, hreg1, Option.getD_some,
    List.singleton_append] at hreg2
  have hcnt2 : (mixinStep c2 (mixinStep c1 (ensureRegistry h) a1) a2).mixinsDestroyed
      = none := by
    rw [mixinStep_mixinsDestroyed, mixinStep_mixinsDestroyed,
      ensureRegistry_mixinsDestroyed, hrd]
  have hbc : (c2 == c1) = false := by simpa using hcc
  have hfil : ([(a1.mixin.id, mkEntry c1 a1.mixin), (a2.mixin.id, mkEntry c2 a2.mixin)].filter
      (fun e => e.2.classApplyingMixin == c1))
      = [(a1.mixin.id, mkEntry c1 a1.mixin)] := by
    simp [mkEntry, List.filter_cons, hbc]
  have hkeep : (mixinDestroys (mixinStep c2 (mixinStep c1 (ensureRegistry h) a1) a2) c1).mixinsApplied
      = some [(a1.mixin.id, mkEntry c1 a1.mixin), (a2.mixin.id, mkEntry c2 a2.mixin)] := by
    rw [mixinDestroys_mixinsApplied _ _ _ hreg2, hcnt2, hfil]
    simp
  refine ⟨?_, ?_, ?_⟩
  · rw [mixinDestroys_destroyLog _ _ _ hreg2, mixinStep_destroyLog, mixinStep_destroyLog,
      ensureRegistry_destroyLog]
    simp [selDestroyIds, hreg2, hfil, mkEntry, hcc]
  · rw [hasMixin_of_some _ _ hkeep]
    simp
  · intro n v hm hn
    rw [mixinDestroys_ownProps, mixinStep_ownProps_of_not _ _ _ hH1]
    exact alookup_applyMixin_mem _ _ n v hnd hm hn

/-- Witness for C4 at a concrete fresh host, two mixins and two owning
classes. -/
theorem claimC4_witness :
    (mixinDestroys (mixinInits (mixinInits exFresh 10 [⟨trivMixin 1, none⟩]) 20
        [⟨trivMixin 2, none⟩]) 10).destroyLog = exFresh.destroyLog ++ [(trivMixin 1).id] ∧
    hasMixin (mixinDestroys (mixinInits (mixinInits exFresh 10 [⟨trivMixin 1, none⟩]) 20
        [⟨trivMixin 2, none⟩]) 10) (trivMixin 2).id = true ∧
    (∀ n v, (n, v) ∈ (trivMixin 2).protoProps → n ≠ ckey →
      alookup (mixinDestroys (mixinInits (mixinInits exFresh 10 [⟨trivMixin 1, none⟩]) 20
          [⟨trivMixin 2, none⟩]) 10).ownProps n = some v) :=
  claimC4_scoped_teardown exFresh 10 20 ⟨trivMixin 1, none⟩ ⟨trivMixin 2, none⟩
    rfl rfl (by decide) (by decide) (by decide)

/-- C10: for a unit U being newly attached, mixinInits installs U's members
and records a registry entry regardless of what U's initializer does (in
particular when it returns early because its constraint check failed):
afterwards hasMixin is true and a mixinDestroys scoped to the attaching
class invokes U's finalizer — the attachment is not rolled back. -/
theorem claimC10_failed_constraint_not_rolled_back {σ γ : Type} (h : Host σ)
    (c : Nat) (a : MixinArg σ γ) (hA : hasMixin h a.mixin.id = false)
    (hnd : (a.mixin.protoProps.map Prod.fst).Nodup) :
    hasMixin (mixinInits h c [a]) a.mixin.id = true ∧
    (∀ n v, (n, v) ∈ a.mixin.protoProps → n ≠ ckey →
      alookup (mixinInits h c [a]).ownProps n = some v) ∧
    a.mixin.id ∈ ((mixinDestroys (mixinInits h c [a]) c).destroyLog.drop
      (mixinInits h c [a]).destroyLog.length) := by
  rw [mixinInits_one]
  have hE : hasMixin (ensureRegistry h) a.mixin.id = false := by
    rw [hasMixin_ensureRegistry]; exact hA
  have hreg1 := mixinStep_mixinsApplied c (ensureRegistry h) a
  rw [hE] at hreg1
  simp only [Bool.false_eq_true, if_false, ensureRegistry_mixinsApplied,
    Option.getD_some] at hreg1
  refine ⟨?_, ?_, ?_⟩
  · rw [hasMixin_of_some _ _ hreg1]
    simp
  · intro n v hm hn
    rw [mixinStep_ownProps_of_not _ _ _ hE]
    exact alookup_applyMixin_mem _ _ n v hnd hm hn
  · rw [mixinDestroys_destroyLog _ _ _ hreg1, List.drop_left]
    simp only [selDestroyIds, hreg1, Option.getD_some]
    refine List.mem_map.mpr ⟨(a.mixin.id, mkEntry c a.mixin), ?_, rfl⟩
    rw [List.mem_reverse]
    refine List.mem_filter.mpr ⟨List.mem_append_right _ (by simp), by simp [mkEntry]⟩

/-- Witness for C10: MixinString attached to a host that is not a
MixinNumber and has no MixinNumber mixin, so its initializer early-returns
on the failed constraint check. -/
theorem claimC10_witness :
    hasMixin (mixinInits plainFresh plainId [⟨mixinStringC, none⟩]) mixinStringC.id = true ∧
    (∀ n v, (n, v) ∈ mixinStringC.protoProps → n ≠ ckey →
      alookup (mixinInits plainFresh plainId [⟨mixinStringC, none⟩]).ownProps n = some v) ∧
    mixinStringC.id ∈ ((mixinDestroys (mixinInits plainFresh plainId
        [⟨mixinStringC, none⟩]) plainId).destroyLog.drop
      (mixinInits plainFresh plainId [⟨mixinStringC, none⟩]).destroyLog.length) :=
  claimC10_failed_constraint_not_rolled_back plainFresh plainId ⟨mixinStringC, none⟩
    (by decide) (by decide)

/-- C7: the constraint check checkApplicable (notApplicable) signals
applicable (returns false) if and only if the host is an instance of the
required class or already has it attached as a mixin; otherwise it returns
true and emits a single diagnostic naming the host's class, the required
class and the mixin, emitting nothing when it signals applicable.  It is a
total function: no exception is raised and the caller continues. -/
theorem claimC7_constraint_check {σ : Type} (h : Host σ) (mixinId requiredId : Nat) :
    ((notApplicable h mixinId requiredId).1 = false ↔
      (h.classChain.contains requiredId = true ∨ hasMixin h requiredId = true)) ∧
    (notApplicable h mixinId requiredId).2 =
      (if (notApplicable h mixinId requiredId).1 then
        [(getCtor h, requiredId, mixinId)] else []) := by
  by_cases hc : requiredId ∈ h.classChain <;>
    cases hm : hasMixin h requiredId <;>
      simp [notApplicable, hc, hm]

/-- C8: applyMixin leaves the host's constructor property unchanged while
every own member descriptor of the mixin prototype other than the
constructor slot (which is deliberately restored) has been copied onto the
host. -/
theorem claimC8_members_installed_ctor_preserved {σ : Type} (h : Host σ)
    (props : List (Nat × Nat)) (hnd : (props.map Prod.fst).Nodup) :
    getCtor (applyMixin h props) = getCtor h ∧
    ∀ n v, (n, v) ∈ props → n ≠ ckey →
      alookup (applyMixin h props).ownProps n = some v :=
  ⟨getCtor_applyMixin h props,
   fun n v hm hn => alookup_applyMixin_mem h props n v hnd hm hn⟩

/-- Witness for C8 at the fresh Combinator host and the MixinNumber
prototype. -/
theorem claimC8_witness :
    getCtor (applyMixin combinatorFresh mixinNumberC.protoProps) = getCtor combinatorFresh ∧
    ∀ n v, (n, v) ∈ mixinNumberC.protoProps → n ≠ ckey →
      alookup (applyMixin combinatorFresh mixinNumberC.protoProps).ownProps n = some v :=
  claimC8_members_installed_ctor_preserved combinatorFresh mixinNumberC.protoProps
    (by decide)

/-- C9: the example scenario: a Combinator instance (MixinNumber with no
conf, then MixinString with conf defaultValue "Fave nr is: ", where
MixinString requires MixinNumber) yields getString() equal to
"Fave nr is: " initially, and "Fave nr is: 1" after joinWithNumber(). -/
theorem claimC9_example_scenario :
    getString combinator.user = "Fave nr is: " ∧
    getString (joinWithNumber combinator.user) = "Fave nr is: 1" := by
  decide

/-- C5 counterexample: after mixin 1 is attached by class 10 and mixin 2 by
class 20, the first teardown scoped to class 10 does not retire the
registry, and a second teardown scoped to class 10 re-invokes mixin 1's
finalizer (destroy log [1, 1]) instead of selecting an empty set. -/
theorem claimC5_counterexample :
    exD1.mixinsApplied.isSome = true ∧
    exD1.destroyLog = [1] ∧
    exD2.destroyLog = [1, 1] := by
  decide

/-- C5 corrected: after a first teardownAll(H, C) that did not retire the
registry, the registry still holds the same entries (matching entries are
never individually removed), so a second teardownAll(H, C) re-selects the
same set of entries and re-invokes their finalizers in the same order; the
teardown counter is never decremented: it grows by the size of the
selection unless the second pass retires registry and counter together. -/
theorem claimC5_amended {σ : Type} (h : Host σ) (c : Nat)
    (hs : (mixinDestroys h c).mixinsApplied.isSome = true) :
    (mixinDestroys h c).mixinsApplied = h.mixinsApplied ∧
    selDestroyIds (mixinDestroys h c) c = selDestroyIds h c ∧
    (mixinDestroys (mixinDestroys h c) c).destroyLog
      = (mixinDestroys h c).destroyLog ++ selDestroyIds h c ∧
    ((mixinDestroys (mixinDestroys h c) c).mixinsDestroyed = none ∨
      (mixinDestroys (mixinDestroys h c) c).mixinsDestroyed.getD 0
        ≥ (mixinDestroys h c).mixinsDestroyed.getD 0) := by
  cases hm : h.mixinsApplied with
  | none =>
    rw [mixinDestroys_of_none _ _ hm, hm] at hs
    simp at hs
  | some reg =>
    have hA := mixinDestroys_mixinsApplied h c reg hm
    by_cases hcond : reg.length = h.mixinsDestroyed.getD 0 +
        (reg.filter (fun e => e.2.classApplyingMixin == c)).length
    · rw [hA] at hs
      simp [hcond] at hs
    · rw [if_neg hcond] at hA
      have hsel : selDestroyIds (mixinDestroys h c) c = selDestroyIds h c := by
        simp [selDestroyIds, hA, hm]
      have hC := mixinDestroys_mixinsDestroyed h c reg hm
      rw [if_neg hcond] at hC
      refine ⟨hA, hsel, ?_, ?_⟩
      · rw [mixinDestroys_destroyLog _ c reg hA, hsel]
      · by_cases hcond2 : reg.length = (mixinDestroys h c).mixinsDestroyed.getD 0 +
            (reg.filter (fun e => e.2.classApplyingMixin == c)).length
        · left
          rw [mixinDestroys_mixinsDestroyed _ c reg hA, if_pos hcond2]
        · right
          rw [mixinDestroys_mixinsDestroyed _ c reg hA, if_neg hcond2, hC]
          simp

/-- Witness for C5 as corrected, at the concrete two-class scenario. -/
theorem claimC5_witness :
    (mixinDestroys exH2 10).mixinsApplied = exH2.mixinsApplied ∧
    selDestroyIds (mixinDestroys exH2 10) 10 = selDestroyIds exH2 10 ∧
    (mixinDestroys (mixinDestroys exH2 10) 10).destroyLog
      = (mixinDestroys exH2 10).destroyLog ++ selDestroyIds exH2 10 ∧
    ((mixinDestroys (mixinDestroys exH2 10) 10).mixinsDestroyed = none ∨
      (mixinDestroys (mixinDestroys exH2 10) 10).mixinsDestroyed.getD 0
        ≥ (mixinDestroys exH2 10).mixinsDestroyed.getD 0) :=
  claimC5_amended exH2 10 (by decide)

/-- C6 counterexample: after one attachment is outstanding the teardown
counter does not exist (it is only created by the first teardown call), and
the repeated-teardown scenario retires the registry while class 20's
attachment of mixin 2 is still outstanding (mixin 2's finalizer never ran). -/
theorem claimC6_counterexample :
    exH1.mixinsApplied.isSome = true ∧
    exH1.destroyLog = [] ∧
    exH1.mixinsDestroyed = none ∧
    exD2.mixinsApplied.isNone = true ∧
    exD2.destroyLog.contains 2 = false := by
  decide

/-- C6 corrected: the attachment registry is created on first attachment
and exists after every mixinInits call, which never creates the teardown
counter (the counter is created by the first mixinDestroys call); a
mixinDestroys call on a host with a registry deletes registry and counter
exactly when the running count of finalized units equals the current
registry size — which, under repeated per-class teardown, can happen while
another owning class still has outstanding attachments. -/
theorem claimC6_amended (σ γ : Type) :
    (∀ (h : Host σ) (c : Nat) (args : List (MixinArg σ γ)),
      (mixinInits h c args).mixinsApplied.isSome = true ∧
      (mixinInits h c args).mixinsDestroyed = h.mixinsDestroyed) ∧
    (∀ (h : Host σ) (c : Nat) (reg : List (Nat × Entry σ)),
      h.mixinsApplied = some reg →
      (((mixinDestroys h c).mixinsApplied = none ∧
        (mixinDestroys h c).mixinsDestroyed = none) ↔
        reg.length = h.mixinsDestroyed.getD 0 +
          (reg.filter (fun e => e.2.classApplyingMixin == c)).length)) := by
  constructor
  · intro h c args
    constructor
    · exact foldlStep_isSome c args (ensureRegistry h) (by simp)
    · rw [mixinInits, foldlStep_counter, ensureRegistry_mixinsDestroyed]
  · intro h c reg hm
    have hA := mixinDestroys_mixinsApplied h c reg hm
    have hC := mixinDestroys_mixinsDestroyed h c reg hm
    by_cases hcond : reg.length = h.mixinsDestroyed.getD 0 +
        (reg.filter (fun e => e.2.classApplyingMixin == c)).length
    · rw [if_pos hcond] at hA hC
      simp [hA, hC, hcond]
    · rw [if_neg hcond] at hA hC
      simp [hA, hC, hcond]

/-- Witness for C6 as corrected, at the concrete scenario. -/
theorem claimC6_witness :
    ((mixinInits exFresh 10 [⟨trivMixin 1, none⟩]).mixinsApplied.isSome = true ∧
     (mixinInits exFresh 10 [⟨trivMixin 1, none⟩]).mixinsDestroyed
       = exFresh.mixinsDestroyed) ∧
    (((mixinDestroys exH2 10).mixinsApplied = none ∧
      (mixinDestroys exH2 10).mixinsDestroyed = none) ↔
      ([(1, mkEntry 10 (trivMixin 1)), (2, mkEntry 20 (trivMixin 2))] : List (Nat × Entry Unit)).length
        = exH2.mixinsDestroyed.getD 0 +
          (([(1, mkEntry 10 (trivMixin 1)), (2, mkEntry 20 (trivMixin 2))] : List (Nat × Entry Unit)).filter
            (fun e => e.2.classApplyingMixin == 10)).length) :=
  ⟨(claimC6_amended Unit Unit).1 exFresh 10 [⟨trivMixin 1, none⟩],
   (claimC6_amended Unit Unit).2 exH2 10
     [(1, mkEntry 10 (trivMixin 1)), (2, mkEntry 20 (trivMixin 2))] rfl⟩

end MixinTS
